import Mathlib

/-!
Shallow embedding of the request validation and dispatch pipeline of
`src/rpc_methods.rs` (the foreign-call oracle), together with theorems
settling the specification claims about it.

Modelling conventions:
* JSON values (`serde_json::Value`) are the inductive `Json` below. JSON
  strings are carried as `List Char` so that byte-level slicing of UTF-8
  data (Rust `&s[2..]`) can be modelled exactly; numbers are `Int` since
  no behaviour covered here depends on fractional values.
* A Rust function that can panic is modelled as returning `Option`:
  `none` is a panic, `some` a normal return.
* The token store and the external claim evaluators are collaborators
  outside this module; they enter as the `Oracle` record of functions,
  and each handler also returns the list of collaborator `Event`s it
  performed, in order, so that claims of the form "the evaluator is
  never invoked" are expressible.
-/

/-- JSON values as handled by `serde_json` in this module. -/
inductive Json where
  | null : Json
  | bool : Bool → Json
  | num : Int → Json
  | str : List Char → Json
  | arr : List Json → Json
  | obj : List (String × Json) → Json

/-- Models `Value::as_str`. -/
def Json.as_str : Json → Option (List Char)
  | .str s => some s
  | _ => none

/-- Models `Value::as_array`. -/
def Json.as_array : Json → Option (List Json)
  | .arr xs => some xs
  | _ => none

/-- Models `Value::is_object`. -/
def Json.is_object : Json → Bool
  | .obj _ => true
  | _ => false

/-- Models `Value::get(key)` for object member lookup. -/
def Json.get : Json → String → Option Json
  | .obj fields, k => fields.lookup k
  | _, _ => none

/-- Models `Value == <string literal>` (`PartialEq<str>` for `Value`):
true exactly when the value is a string equal to the literal. -/
def Json.eq_str (v : Json) (s : List Char) : Bool :=
  match v with
  | .str t => t == s
  | _ => false

/-- Models Rust byte slicing `&s[2..]` on a UTF-8 string given as its
character list: `none` when the slice panics, i.e. when the string is
shorter than two bytes or byte index 2 is not a character boundary;
otherwise the characters after the first two bytes. -/
def sliceFrom2 : List Char → Option (List Char)
  | [] => none
  | c :: rest =>
    if c.utf8Size = 2 then some rest
    else if c.utf8Size = 1 then
      match rest with
      | [] => none
      | c2 :: rest2 => if c2.utf8Size = 1 then some rest2 else none
    else none

/-- Value of one hexadecimal digit character, as in `char::to_digit(16)`. -/
def hexDigitVal (c : Char) : Option Nat :=
  if '0' ≤ c ∧ c ≤ '9' then some (c.toNat - '0'.toNat)
  else if 'a' ≤ c ∧ c ≤ 'f' then some (c.toNat - 'a'.toNat + 10)
  else if 'A' ≤ c ∧ c ≤ 'F' then some (c.toNat - 'A'.toNat + 10)
  else none

/-- Whether a character is a hexadecimal digit. -/
def isHexDigit (c : Char) : Bool := (hexDigitVal c).isSome

/-- Accumulating base-16 evaluation of a digit list; fails at the first
character that is not a hexadecimal digit. -/
def parseHexAux : Nat → List Char → Option Nat
  | acc, [] => some acc
  | acc, c :: rest =>
    match hexDigitVal c with
    | some d => parseHexAux (acc * 16 + d) rest
    | none => none

/-- Numeric value of a list of hexadecimal digits (most significant first). -/
def hexVal (ds : List Char) : Nat :=
  ds.foldl (fun acc c => acc * 16 + (hexDigitVal c).getD 0) 0

/-- Models `T::from_str_radix(s, 16)` for an unsigned integer type with
maximum value `max`: an optional leading plus sign, then at least one
digit; fails on an empty digit string, on any character that is not a
hexadecimal digit (a minus sign included, since the type is unsigned),
and on overflow past `max`. -/
def from_str_radix16 (s : List Char) (max : Nat) : Option Nat :=
  let digits := match s with
    | c :: rest => if c = '+' then rest else c :: rest
    | [] => []
  match digits with
  | [] => none
  | _ :: _ =>
    match parseHexAux 0 digits with
    | none => none
    | some n => if n ≤ max then some n else none

/-- `hex_to_u8` from `rpc_methods.rs`: `as_str().unwrap_or("\0")`, then
`u8::from_str_radix(&hex_str[2..], 16).unwrap_or(0)`. The byte slice can
panic (modelled by `none`): the fallback string `"\0"` is a single byte,
so every non-string input panics, as does every string shorter than two
bytes or with no character boundary at byte 2. -/
def hex_to_u8 (hex_string : Json) : Option Nat :=
  let hex_str := (hex_string.as_str).getD ['\x00']
  match sliceFrom2 hex_str with
  | none => none
  | some tail => some ((from_str_radix16 tail 255).getD 0)

/-- `hex_to_u64` from `rpc_methods.rs`; identical to `hex_to_u8` except
for the 64-bit bound. -/
def hex_to_u64 (hex_string : Json) : Option Nat :=
  let hex_str := (hex_string.as_str).getD ['\x00']
  match sliceFrom2 hex_str with
  | none => none
  | some tail => some ((from_str_radix16 tail (2 ^ 64 - 1)).getD 0)

/-- Whether a string starts with the two characters `0x`. -/
def startsWith0x : List Char → Bool
  | '0' :: 'x' :: _ => true
  | _ => false

/-- `hex_to_char` from `rpc_methods.rs`: non-strings and strings without
the `0x` prefix give the null character; otherwise the rest is parsed as
a 32-bit hexadecimal number and converted with `char::from_u32`, every
failure again giving the null character. Since `0` and `x` are one byte
each, the byte slice `&hex_str[2..]` here is `List.drop 2` and cannot
panic. -/
def hex_to_char (hex_string : Json) : Char :=
  match hex_string.as_str with
  | none => '\x00'
  | some hex_str =>
    if startsWith0x hex_str then
      let trimmed := hex_str.drop 2
      match from_str_radix16 trimmed (2 ^ 32 - 1) with
      | none => '\x00'
      | some number =>
        if h : number.isValidChar then Char.ofNatAux number h else '\x00'
    else '\x00'

/-- The per-element character decoding of a wire array, as used for the
`key` and `track` inputs: `key.iter().map(hex_to_char)`. -/
def decode_chars (xs : List Json) : List Char := xs.map hex_to_char

/-- The `jsonrpc_core::Error` values produced by this module. Every error
this module creates carries the InvalidParams error code
(`Error::invalid_params` and `Error::invalid_params_with_details` both
use it), so the model records only the message and the optional detail
data. -/
structure RpcError where
  message : String
  data : Option String
deriving DecidableEq

/-- Models `Error::invalid_params(msg)`. -/
def RpcError.invalid_params (msg : String) : RpcError := ⟨msg, none⟩

/-- Models `Error::invalid_params_with_details(msg, details)`. -/
def RpcError.invalid_params_with_details (msg details : String) : RpcError :=
  ⟨msg, some details⟩

/-- The apostrophe character, kept out of string literals. -/
def apos : String := String.mk [Char.ofNat 39]

def msgMissingInputs : String := "Missing or invalid " ++ apos ++ "inputs" ++ apos
def msgFourInputs : String := "Invalid input; requires 4 distinct inputs"
def msgFirstInput : String := "First input must be an array"
def msgSecondInput : String := "Second input must be an array"
def msgThirdInput : String := "Third input must be an array"
def msgFourthInput : String := "Fourth input must be an array"
def msgNotObject : String := "Invalid params; expected an object"
def msgInvalidMethod : String := "Invalid method"
def msgMissingFunction : String := "Missing " ++ apos ++ "function" ++ apos ++ " field"
def msgSingleItem : String := "Invalid params; expected a single-item array"
def msgEmptyRanges : String := "Time range or list range is empty"
def msgEmptyIdToken : String := "ID or token cannot be empty"

/-- `validate_and_extract_inputs` from `rpc_methods.rs`: requires an
`inputs` member that is an array of exactly four elements, each itself
an array, and returns the four element lists (key, track, time range,
list range). -/
def validate_and_extract_inputs (params : Json) :
    Except RpcError (List Json × List Json × List Json × List Json) :=
  match (params.get "inputs").bind Json.as_array with
  | none => .error (.invalid_params msgMissingInputs)
  | some inputs =>
    if inputs.length ≠ 4 then .error (.invalid_params msgFourInputs)
    else
      match (inputs.getD 0 .null).as_array with
      | none => .error (.invalid_params msgFirstInput)
      | some key =>
        match (inputs.getD 1 .null).as_array with
        | none => .error (.invalid_params msgSecondInput)
        | some track =>
          match (inputs.getD 2 .null).as_array with
          | none => .error (.invalid_params msgThirdInput)
          | some time_range =>
            match (inputs.getD 3 .null).as_array with
            | none => .error (.invalid_params msgFourthInput)
            | some list_range => .ok (key, track, time_range, list_range)

/-- Modelled from the spec: the `TimeRange` enumeration lives in
`types.rs`, which is not among the provided sources; the spec describes
it as a closed enumeration of supported historical windows
(short/medium/long term). -/
inductive TimeRange where
  | shortTerm : TimeRange
  | mediumTerm : TimeRange
  | longTerm : TimeRange
deriving DecidableEq

/-- Modelled from the spec: `TimeRange::from_number` (in `types.rs`, not
among the provided sources) maps a byte to an enumeration member or
fails with the enumeration rejection message; the spec states the byte
must match a known member and no tolerated unknown variant exists. The
exact byte assignment is the natural 0/1/2 one. -/
def TimeRange.from_number (n : Nat) : Except String TimeRange :=
  match n with
  | 0 => .ok .shortTerm
  | 1 => .ok .mediumTerm
  | 2 => .ok .longTerm
  | _ => .error "Invalid time range"

/-- The collaborators outside this module: the token store
(`get_token`, `store_key_and_token`, `delete_token` from the redis
module) and the three external claim evaluators (from the query builder
module). Each may fail with a displayable message. -/
structure Oracle where
  get_token : String → Except String String
  can_claim_top_tracks : String → String → TimeRange → Nat → Except String Json
  can_claim_top_artist : String → String → TimeRange → Nat → Except String Json
  can_claim_recently_played_track : String → String → Nat → Nat → Except String Json
  store_key_and_token : String → String → Except String Unit
  delete_token : String → Except String Unit

/-- One collaborator invocation, recorded in order by each method. -/
inductive Event where
  | getToken : String → Event
  | evalTopTracks : String → String → TimeRange → Nat → Event
  | evalTopArtist : String → String → TimeRange → Nat → Event
  | evalRecentlyPlayed : String → String → Nat → Nat → Event
  | storeToken : String → String → Event
  | deleteToken : String → Event
deriving DecidableEq

/-- `handle_can_claim_top_tracks` from `rpc_methods.rs`. The result is
`none` when the Rust code panics (a `hex_to_u8` panic while decoding the
trailing arrays); otherwise the JSON-RPC result or error, paired with
the ordered list of collaborator invocations performed. -/
def handle_can_claim_top_tracks (o : Oracle) (params : Json) :
    Option (Except RpcError Json × List Event) :=
  match validate_and_extract_inputs params with
  | .error e => some (.error e, [])
  | .ok (key, track, time_range, list_range) =>
    let key_data : String := String.mk (decode_chars key)
    let track_data : String := String.mk (decode_chars track)
    match time_range.mapM hex_to_u8 with
    | none => none
    | some time_range_data =>
      match list_range.mapM hex_to_u8 with
      | none => none
      | some list_range_data =>
        if time_range_data.isEmpty || list_range_data.isEmpty then
          some (.error (.invalid_params msgEmptyRanges), [])
        else
          match TimeRange.from_number (time_range_data.headD 0) with
          | .error e => some (.error (.invalid_params_with_details e ""), [])
          | .ok time_range_type =>
            match o.get_token key_data with
            | .error e =>
              some (.error (.invalid_params_with_details e ""), [.getToken key_data])
            | .ok auth_data =>
              match o.can_claim_top_tracks auth_data track_data time_range_type
                  (list_range_data.headD 0) with
              | .ok result =>
                some (.ok (.obj [("values", .arr [result])]),
                  [.getToken key_data,
                   .evalTopTracks auth_data track_data time_range_type
                     (list_range_data.headD 0)])
              | .error e =>
                some (.error (.invalid_params_with_details e ""),
                  [.getToken key_data,
                   .evalTopTracks auth_data track_data time_range_type
                     (list_range_data.headD 0)])

/-- `handle_can_claim_top_artist` from `rpc_methods.rs`; identical in
shape to the top-tracks handler but calling the top-artist evaluator. -/
def handle_can_claim_top_artist (o : Oracle) (params : Json) :
    Option (Except RpcError Json × List Event) :=
  match validate_and_extract_inputs params with
  | .error e => some (.error e, [])
  | .ok (key, track, time_range, list_range) =>
    let key_data : String := String.mk (decode_chars key)
    let track_data : String := String.mk (decode_chars track)
    match time_range.mapM hex_to_u8 with
    | none => none
    | some time_range_data =>
      match list_range.mapM hex_to_u8 with
      | none => none
      | some list_range_data =>
        if time_range_data.isEmpty || list_range_data.isEmpty then
          some (.error (.invalid_params msgEmptyRanges), [])
        else
          match TimeRange.from_number (time_range_data.headD 0) with
          | .error e => some (.error (.invalid_params_with_details e ""), [])
          | .ok time_range_type =>
            match o.get_token key_data with
            | .error e =>
              some (.error (.invalid_params_with_details e ""), [.getToken key_data])
            | .ok auth_data =>
              match o.can_claim_top_artist auth_data track_data time_range_type
                  (list_range_data.headD 0) with
              | .ok result =>
                some (.ok (.obj [("values", .arr [result])]),
                  [.getToken key_data,
                   .evalTopArtist auth_data track_data time_range_type
                     (list_range_data.headD 0)])
              | .error e =>
                some (.error (.invalid_params_with_details e ""),
                  [.getToken key_data,
                   .evalTopArtist auth_data track_data time_range_type
                     (list_range_data.headD 0)])

/-- `handle_can_claim_recently_played_track` from `rpc_methods.rs`: the
third input decodes through `hex_to_u64` into after-timestamps and there
is no time-range enumeration check. -/
def handle_can_claim_recently_played_track (o : Oracle) (params : Json) :
    Option (Except RpcError Json × List Event) :=
  match validate_and_extract_inputs params with
  | .error e => some (.error e, [])
  | .ok (key, track, after_range, play_time_range) =>
    let key_data : String := String.mk (decode_chars key)
    let track_data : String := String.mk (decode_chars track)
    match after_range.mapM hex_to_u64 with
    | none => none
    | some after_data =>
      match play_time_range.mapM hex_to_u8 with
      | none => none
      | some played_time_data =>
        if after_data.isEmpty || played_time_data.isEmpty then
          some (.error (.invalid_params msgEmptyRanges), [])
        else
          match o.get_token key_data with
          | .error e =>
            some (.error (.invalid_params_with_details e ""), [.getToken key_data])
          | .ok auth_data =>
            match o.can_claim_recently_played_track auth_data track_data
                (after_data.headD 0) (played_time_data.headD 0) with
            | .ok result =>
              some (.ok (.obj [("values", .arr [result])]),
                [.getToken key_data,
                 .evalRecentlyPlayed auth_data track_data (after_data.headD 0)
                   (played_time_data.headD 0)])
            | .error e =>
              some (.error (.invalid_params_with_details e ""),
                [.getToken key_data,
                 .evalRecentlyPlayed auth_data track_data (after_data.headD 0)
                   (played_time_data.headD 0)])

/-- Modelled from the spec: the top-tracks discriminator constant from
`types.rs`, which is not among the provided sources. The spec fixes that
the three discriminators are distinct exact string constants but does
not record their spellings; the spelling chosen here follows the Rust
constant name. -/
def CAN_CLAIM_TOP_TRACKS : List Char := "can_claim_top_tracks".toList

/-- Modelled from the spec: the top-artists discriminator constant from
`types.rs` (see `CAN_CLAIM_TOP_TRACKS`). -/
def CAN_CLAIM_TOP_ARTISTS : List Char := "can_claim_top_artists".toList

/-- Modelled from the spec: the recently-played-track discriminator
constant from `types.rs` (see `CAN_CLAIM_TOP_TRACKS`). -/
def CAN_CLAIM_RECENTLY_PLAYED_TRACK : List Char :=
  "can_claim_recently_played_track".toList

/-- Models `jsonrpc_core::Params`: the params member of a JSON-RPC
request is absent, an array, or an object. -/
inductive Params where
  | none : Params
  | array : List Json → Params
  | map : List (String × Json) → Params

/-- The `resolve_foreign_call` method body from `create_io` in
`rpc_methods.rs`: requires a single-element array holding one object,
requires a `function` member, and dispatches on it against the three
discriminator constants in order. -/
def resolve_foreign_call (o : Oracle) (p : Params) :
    Option (Except RpcError Json × List Event) :=
  match p with
  | .array [params] =>
    if !params.is_object then
      some (.error (.invalid_params msgNotObject), [])
    else
      match params.get "function" with
      | some function =>
        if function.eq_str CAN_CLAIM_TOP_TRACKS then
          handle_can_claim_top_tracks o params
        else if function.eq_str CAN_CLAIM_TOP_ARTISTS then
          handle_can_claim_top_artist o params
        else if function.eq_str CAN_CLAIM_RECENTLY_PLAYED_TRACK then
          handle_can_claim_recently_played_track o params
        else some (.error (.invalid_params msgInvalidMethod), [])
      | Option.none => some (.error (.invalid_params msgMissingFunction), [])
  | _ => some (.error (.invalid_params msgSingleItem), [])

/-- The `store_key` method body from `create_io`, after the transport
library has parsed the params into the (identifier, token) pair — the
`params.parse` step belongs to `jsonrpc_core`, outside this module.
Returns the JSON-RPC result or error together with the token-store
invocations performed. -/
def store_key (o : Oracle) (id token : String) :
    Except RpcError Json × List Event :=
  if id = "" || token = "" then (.error (.invalid_params msgEmptyIdToken), [])
  else
    match o.store_key_and_token id token with
    | .error e => (.error (.invalid_params e), [.storeToken id token])
    | .ok _ => (.ok (.str id.toList), [.storeToken id token])

/-- The `delete_key` method body from `create_io`, after the transport
library has parsed the params into the identifier string. The body never
consults the store contents: it deletes and echoes, so deleting an
absent key is indistinguishable from deleting a present one. -/
def delete_key (o : Oracle) (id : String) :
    Except RpcError Json × List Event :=
  if id = "" then (.error (.invalid_params msgEmptyIdToken), [])
  else
    match o.delete_token id with
    | .error e => (.error (.invalid_params e), [.deleteToken id])
    | .ok _ => (.ok (.str id.toList), [.deleteToken id])

/-- A concrete collaborator instance used by witnesses: the token store
maps the key `A` to `tok123` and the evaluators always answer `true`. -/
def oracle0 : Oracle where
  get_token := fun k => if k = "A" then .ok "tok123" else .error "No token found"
  can_claim_top_tracks := fun _ _ _ _ => .ok (Json.bool true)
  can_claim_top_artist := fun _ _ _ _ => .ok (Json.bool true)
  can_claim_recently_played_track := fun _ _ _ _ => .ok (Json.bool true)
  store_key_and_token := fun _ _ => .ok ()
  delete_token := fun _ => .ok ()

theorem hexDigitVal_eq_none_of_not_hex {c : Char} (h : isHexDigit c = false) :
    hexDigitVal c = none := by
  cases hd : hexDigitVal c with
  | none => rfl
  | some d => rw [isHexDigit, hd] at h; simp at h

theorem parseHexAux_all_hex (ds : List Char) (h : ∀ c ∈ ds, isHexDigit c = true) :
    ∀ acc : Nat, parseHexAux acc ds =
      some (ds.foldl (fun a c => a * 16 + (hexDigitVal c).getD 0) acc) := by
  induction ds with
  | nil => intro acc; rfl
  | cons c rest ih =>
    intro acc
    have hc : isHexDigit c = true := h c (by simp)
    rw [isHexDigit] at hc
    cases hd : hexDigitVal c with
    | none => rw [hd] at hc; simp at hc
    | some d =>
      simp only [parseHexAux, hd, List.foldl_cons, Option.getD_some]
      exact ih (fun x hx => h x (by simp [hx])) (acc * 16 + d)

theorem from_str_radix16_all_hex (ds : List Char) (max : Nat) (hne : ds ≠ [])
    (hhex : ∀ c ∈ ds, isHexDigit c = true) (hle : hexVal ds ≤ max) :
    from_str_radix16 ds max = some (hexVal ds) := by
  cases ds with
  | nil => exact absurd rfl hne
  | cons c t =>
    have hc : isHexDigit c = true := hhex c (by simp)
    have hcp : c ≠ '+' := by
      intro hEq
      rw [hEq] at hc
      exact absurd hc (by decide)
    have hstep : from_str_radix16 (c :: t) max =
        if hexVal (c :: t) ≤ max then some (hexVal (c :: t)) else none := by
      simp only [from_str_radix16, if_neg hcp]
      rw [parseHexAux_all_hex _ hhex 0]
      rfl
    rw [hstep, if_pos hle]

theorem from_str_radix16_no_hex (ds : List Char) (max : Nat) (hne : ds ≠ [])
    (hno : ∀ c ∈ ds, isHexDigit c = false) :
    from_str_radix16 ds max = none := by
  cases ds with
  | nil => exact absurd rfl hne
  | cons c t =>
    by_cases hcp : c = '+'
    · subst hcp
      cases t with
      | nil => rfl
      | cons c2 t2 =>
        have h2 : hexDigitVal c2 = none :=
          hexDigitVal_eq_none_of_not_hex (hno c2 (by simp))
        simp [from_str_radix16, parseHexAux, h2]
    · have h1 : hexDigitVal c = none :=
        hexDigitVal_eq_none_of_not_hex (hno c (by simp))
      simp [from_str_radix16, if_neg hcp, parseHexAux, h1]

theorem sliceFrom2_of_single_byte (c1 c2 : Char) (t : List Char)
    (h1 : c1.utf8Size = 1) (h2 : c2.utf8Size = 1) :
    sliceFrom2 (c1 :: c2 :: t) = some t := by
  simp [sliceFrom2, h1, h2]

theorem hex_to_u8_hex_suffix (c1 c2 : Char) (ds : List Char)
    (h1 : c1.utf8Size = 1) (h2 : c2.utf8Size = 1) (hne : ds ≠ [])
    (hhex : ∀ c ∈ ds, isHexDigit c = true) (hle : hexVal ds ≤ 255) :
    hex_to_u8 (Json.str (c1 :: c2 :: ds)) = some (hexVal ds) := by
  simp [hex_to_u8, Json.as_str, sliceFrom2_of_single_byte c1 c2 ds h1 h2,
        from_str_radix16_all_hex ds 255 hne hhex hle]

theorem hex_to_u64_hex_suffix (c1 c2 : Char) (ds : List Char)
    (h1 : c1.utf8Size = 1) (h2 : c2.utf8Size = 1) (hne : ds ≠ [])
    (hhex : ∀ c ∈ ds, isHexDigit c = true) (hle : hexVal ds ≤ 2 ^ 64 - 1) :
    hex_to_u64 (Json.str (c1 :: c2 :: ds)) = some (hexVal ds) := by
  simp only [hex_to_u64, Json.as_str, Option.getD_some,
             sliceFrom2_of_single_byte c1 c2 ds h1 h2,
             from_str_radix16_all_hex ds (2 ^ 64 - 1) hne hhex hle]

theorem hex_to_u8_no_hex_suffix (c1 c2 : Char) (ds : List Char)
    (h1 : c1.utf8Size = 1) (h2 : c2.utf8Size = 1) (hne : ds ≠ [])
    (hno : ∀ c ∈ ds, isHexDigit c = false) :
    hex_to_u8 (Json.str (c1 :: c2 :: ds)) = some 0 := by
  simp [hex_to_u8, Json.as_str, sliceFrom2_of_single_byte c1 c2 ds h1 h2,
        from_str_radix16_no_hex ds 255 hne hno]

theorem hex_to_u64_no_hex_suffix (c1 c2 : Char) (ds : List Char)
    (h1 : c1.utf8Size = 1) (h2 : c2.utf8Size = 1) (hne : ds ≠ [])
    (hno : ∀ c ∈ ds, isHexDigit c = false) :
    hex_to_u64 (Json.str (c1 :: c2 :: ds)) = some 0 := by
  simp only [hex_to_u64, Json.as_str, Option.getD_some, Option.getD_none,
             sliceFrom2_of_single_byte c1 c2 ds h1 h2,
             from_str_radix16_no_hex ds (2 ^ 64 - 1) hne hno]

theorem hex_to_char_no_0x (s : List Char) (h : startsWith0x s = false) :
    hex_to_char (Json.str s) = '\x00' := by
  simp [hex_to_char, Json.as_str, h]

/-- C1: the claim states that all three field decoders are total and
never abort, any failure yielding the sentinel (`0`, or the null
character), including non-string scalars and strings of fewer than two
characters. In the code this holds for `hex_to_char` but not for
`hex_to_u8` and `hex_to_u64`: their fallback string for a non-string
scalar is the one-byte `"\0"`, and the unconditional byte slice
`&hex_str[2..]` then panics (modelled by `none`), as it does on any
string shorter than two bytes. -/
theorem hex_decoders_panic_on_non_string_and_short_scalars :
    hex_to_u8 (Json.num 5) = none ∧
    hex_to_u64 (Json.num 5) = none ∧
    hex_to_u8 (Json.str "0".toList) = none ∧
    hex_to_u64 (Json.str "0".toList) = none ∧
    hex_to_char (Json.num 5) = '\x00' ∧
    hex_to_char (Json.str "0".toList) = '\x00' :=
  ⟨by decide, by decide, by decide, by decide, by decide, by decide⟩

/-- C2: the per-element string decoder used for the key and track inputs
maps each wire scalar to exactly one character, so the decoded string
has the length of the input array; `["0x41","0x42"]` decodes to `AB` and
`["0xZZ","0x42"]` to a null character followed by `B`. -/
theorem decoded_string_length_eq_input_length :
    (∀ xs : List Json, (decode_chars xs).length = xs.length) ∧
    decode_chars [Json.str "0x41".toList, Json.str "0x42".toList] = "AB".toList ∧
    decode_chars [Json.str "0xZZ".toList, Json.str "0x42".toList] =
      '\x00' :: "B".toList :=
  ⟨fun xs => List.length_map xs hex_to_char, by decide, by decide⟩

/-- C3: for every wire scalar `0x` followed by a nonempty string of
hexadecimal digits whose value fits a byte, `hex_to_u8` returns exactly
that value; and for `0x` followed by non-hex characters both `hex_to_u8`
and `hex_to_u64` return the sentinel `0` instead of failing. -/
theorem valid_hex_decodes_exact_and_nonhex_decodes_zero :
    (∀ ds : List Char, ds ≠ [] → (∀ c ∈ ds, isHexDigit c = true) →
       hexVal ds ≤ 255 →
       hex_to_u8 (Json.str ('0' :: 'x' :: ds)) = some (hexVal ds)) ∧
    (∀ ds : List Char, ds ≠ [] → (∀ c ∈ ds, isHexDigit c = false) →
       hex_to_u8 (Json.str ('0' :: 'x' :: ds)) = some 0 ∧
       hex_to_u64 (Json.str ('0' :: 'x' :: ds)) = some 0) :=
  ⟨fun ds hne hhex hle =>
     hex_to_u8_hex_suffix '0' 'x' ds (by decide) (by decide) hne hhex hle,
   fun ds hne hno =>
     ⟨hex_to_u8_no_hex_suffix '0' 'x' ds (by decide) (by decide) hne hno,
      hex_to_u64_no_hex_suffix '0' 'x' ds (by decide) (by decide) hne hno⟩⟩

theorem valid_hex_decodes_exact_and_nonhex_decodes_zero_witness :
    hex_to_u8 (Json.str ('0' :: 'x' :: ['4', '1'])) = some (hexVal ['4', '1']) ∧
    hex_to_u8 (Json.str ('0' :: 'x' :: ['Z', 'Z'])) = some 0 ∧
    hex_to_u64 (Json.str ('0' :: 'x' :: ['Z', 'Z'])) = some 0 :=
  ⟨valid_hex_decodes_exact_and_nonhex_decodes_zero.1 ['4', '1']
     (by decide) (by decide) (by decide),
   (valid_hex_decodes_exact_and_nonhex_decodes_zero.2 ['Z', 'Z']
     (by decide) (by decide)).1,
   (valid_hex_decodes_exact_and_nonhex_decodes_zero.2 ['Z', 'Z']
     (by decide) (by decide)).2⟩

/-- C10: `hex_to_u8` and `hex_to_u64` skip the first two bytes of the
scalar unconditionally without checking them against `0x`: for any two
one-byte characters followed by a nonempty hex-digit string in range,
they return the value of that suffix (so `zz41` decodes to 65), while
`hex_to_char` returns the null character for every string that does not
start with `0x`. -/
theorem numeric_decoders_skip_two_bytes_unconditionally :
    (∀ (c1 c2 : Char) (ds : List Char), c1.utf8Size = 1 → c2.utf8Size = 1 →
       ds ≠ [] → (∀ c ∈ ds, isHexDigit c = true) → hexVal ds ≤ 255 →
       hex_to_u8 (Json.str (c1 :: c2 :: ds)) = some (hexVal ds)) ∧
    (∀ (c1 c2 : Char) (ds : List Char), c1.utf8Size = 1 → c2.utf8Size = 1 →
       ds ≠ [] → (∀ c ∈ ds, isHexDigit c = true) → hexVal ds ≤ 2 ^ 64 - 1 →
       hex_to_u64 (Json.str (c1 :: c2 :: ds)) = some (hexVal ds)) ∧
    hex_to_u8 (Json.str "zz41".toList) = some 65 ∧
    (∀ s : List Char, startsWith0x s = false →
       hex_to_char (Json.str s) = '\x00') :=
  ⟨hex_to_u8_hex_suffix, hex_to_u64_hex_suffix, by decide, hex_to_char_no_0x⟩

theorem numeric_decoders_skip_two_bytes_unconditionally_witness :
    hex_to_u8 (Json.str ('z' :: 'z' :: ['4', '1'])) = some (hexVal ['4', '1']) ∧
    hex_to_u64 (Json.str ('z' :: 'z' :: ['4', '1'])) = some (hexVal ['4', '1']) ∧
    hex_to_char (Json.str "zz41".toList) = '\x00' :=
  ⟨numeric_decoders_skip_two_bytes_unconditionally.1 'z' 'z' ['4', '1']
     (by decide) (by decide) (by decide) (by decide) (by decide),
   numeric_decoders_skip_two_bytes_unconditionally.2.1 'z' 'z' ['4', '1']
     (by decide) (by decide) (by decide) (by decide) (by decide),
   numeric_decoders_skip_two_bytes_unconditionally.2.2.2 "zz41".toList (by decide)⟩

theorem Json.eq_str_eq {v : Json} {s : List Char} (h : v.eq_str s = true) :
    v = Json.str s := by
  cases v <;> simp [Json.eq_str] at h
  exact congrArg Json.str h

/-- C4: `resolve_foreign_call` rejects, with an InvalidParams error and
before touching any collaborator: a params value that is not a
one-element array (message about a single-item array), a single element
that is not an object, an object with no `function` member (message
naming the missing field), and a `function` value matching none of the
three discriminator constants (message `Invalid method`). The result in
each case is the same for every oracle, so the `function` member and the
handlers play no part in the rejection. -/
theorem dispatcher_rejects_malformed_requests :
    (∀ o : Oracle, resolve_foreign_call o Params.none =
       some (.error (.invalid_params msgSingleItem), [])) ∧
    (∀ (o : Oracle) (m : List (String × Json)), resolve_foreign_call o (Params.map m) =
       some (.error (.invalid_params msgSingleItem), [])) ∧
    (∀ (o : Oracle) (items : List Json), items.length ≠ 1 →
       resolve_foreign_call o (Params.array items) =
         some (.error (.invalid_params msgSingleItem), [])) ∧
    (∀ (o : Oracle) (v : Json), v.is_object = false →
       resolve_foreign_call o (Params.array [v]) =
         some (.error (.invalid_params msgNotObject), [])) ∧
    (∀ (o : Oracle) (fields : List (String × Json)),
       (Json.obj fields).get "function" = Option.none →
       resolve_foreign_call o (Params.array [Json.obj fields]) =
         some (.error (.invalid_params msgMissingFunction), [])) ∧
    (∀ (o : Oracle) (fields : List (String × Json)) (f : Json),
       (Json.obj fields).get "function" = some f →
       f.eq_str CAN_CLAIM_TOP_TRACKS = false →
       f.eq_str CAN_CLAIM_TOP_ARTISTS = false →
       f.eq_str CAN_CLAIM_RECENTLY_PLAYED_TRACK = false →
       resolve_foreign_call o (Params.array [Json.obj fields]) =
         some (.error (.invalid_params msgInvalidMethod), [])) := by
  refine ⟨fun o => rfl, fun o m => rfl, ?_, ?_, ?_, ?_⟩
  · intro o items h
    match items with
    | [] => rfl
    | [a] => exact absurd rfl h
    | a :: b :: t => rfl
  · intro o v h
    simp [resolve_foreign_call, h]
  · intro o fields h
    simp [resolve_foreign_call, Json.is_object, h]
  · intro o fields f hget h1 h2 h3
    simp [resolve_foreign_call, Json.is_object, hget, h1, h2, h3]

theorem dispatcher_rejects_malformed_requests_witness :
    resolve_foreign_call oracle0 (Params.array []) =
      some (.error (.invalid_params msgSingleItem), []) ∧
    resolve_foreign_call oracle0 (Params.array [Json.num 3]) =
      some (.error (.invalid_params msgNotObject), []) ∧
    resolve_foreign_call oracle0 (Params.array [Json.obj []]) =
      some (.error (.invalid_params msgMissingFunction), []) ∧
    resolve_foreign_call oracle0
        (Params.array [Json.obj [("function", Json.str "nope".toList)]]) =
      some (.error (.invalid_params msgInvalidMethod), []) :=
  ⟨dispatcher_rejects_malformed_requests.2.2.1 oracle0 [] (by decide),
   dispatcher_rejects_malformed_requests.2.2.2.1 oracle0 (Json.num 3) rfl,
   dispatcher_rejects_malformed_requests.2.2.2.2.1 oracle0 [] rfl,
   dispatcher_rejects_malformed_requests.2.2.2.2.2 oracle0
     [("function", Json.str "nope".toList)] (Json.str "nope".toList)
     rfl (by decide) (by decide) (by decide)⟩

/-- C5: the input extractor fails with InvalidParams when the `inputs`
member is absent or not an array, when its length is not exactly four,
and when any of the four positional elements is not itself an array (the
message naming the failing slot); and any such failure is returned
unchanged, with no collaborator invoked, by `resolve_foreign_call` for
every request routed to any of the three handlers, whichever `function`
value was given. -/
theorem input_extractor_rejects_bad_shapes :
    (∀ p : Json, (p.get "inputs").bind Json.as_array = Option.none →
       validate_and_extract_inputs p = .error (.invalid_params msgMissingInputs)) ∧
    (∀ (p : Json) (inputs : List Json),
       (p.get "inputs").bind Json.as_array = some inputs → inputs.length ≠ 4 →
       validate_and_extract_inputs p = .error (.invalid_params msgFourInputs)) ∧
    (∀ (p : Json) (a b c d : Json),
       (p.get "inputs").bind Json.as_array = some [a, b, c, d] →
       (a.as_array = Option.none →
          validate_and_extract_inputs p = .error (.invalid_params msgFirstInput)) ∧
       (∀ ka, a.as_array = some ka → b.as_array = Option.none →
          validate_and_extract_inputs p = .error (.invalid_params msgSecondInput)) ∧
       (∀ ka kb, a.as_array = some ka → b.as_array = some kb →
          c.as_array = Option.none →
          validate_and_extract_inputs p = .error (.invalid_params msgThirdInput)) ∧
       (∀ ka kb kc, a.as_array = some ka → b.as_array = some kb →
          c.as_array = some kc → d.as_array = Option.none →
          validate_and_extract_inputs p = .error (.invalid_params msgFourthInput))) ∧
    (∀ (o : Oracle) (fields : List (String × Json)) (f : Json) (e : RpcError),
       (Json.obj fields).get "function" = some f →
       (f.eq_str CAN_CLAIM_TOP_TRACKS || f.eq_str CAN_CLAIM_TOP_ARTISTS ||
        f.eq_str CAN_CLAIM_RECENTLY_PLAYED_TRACK) = true →
       validate_and_extract_inputs (Json.obj fields) = .error e →
       resolve_foreign_call o (Params.array [Json.obj fields]) =
         some (.error e, [])) := by
  refine ⟨?_, ?_, ?_, ?_⟩
  · intro p h
    simp [validate_and_extract_inputs, h]
  · intro p inputs h hlen
    simp [validate_and_extract_inputs, h, hlen]
  · intro p a b c d h
    refine ⟨?_, ?_, ?_, ?_⟩
    · intro ha
      simp [validate_and_extract_inputs, h, ha]
    · intro ka ha hb
      simp [validate_and_extract_inputs, h, ha, hb]
    · intro ka kb ha hb hc
      simp [validate_and_extract_inputs, h, ha, hb, hc]
    · intro ka kb kc ha hb hc hd
      simp [validate_and_extract_inputs, h, ha, hb, hc, hd]
  · intro o fields f e hget hor hval
    simp only [Bool.or_eq_true] at hor
    rcases hor with (h1 | h2) | h3
    · have hf := Json.eq_str_eq h1
      subst hf
      have htt : (Json.str CAN_CLAIM_TOP_TRACKS).eq_str CAN_CLAIM_TOP_TRACKS
          = true := by decide
      simp [resolve_foreign_call, Json.is_object, hget, htt,
            handle_can_claim_top_tracks, hval]
    · have hf := Json.eq_str_eq h2
      subst hf
      have hne1 : (Json.str CAN_CLAIM_TOP_ARTISTS).eq_str CAN_CLAIM_TOP_TRACKS
          = false := by decide
      have hta : (Json.str CAN_CLAIM_TOP_ARTISTS).eq_str CAN_CLAIM_TOP_ARTISTS
          = true := by decide
      simp [resolve_foreign_call, Json.is_object, hget, hne1, hta,
            handle_can_claim_top_artist, hval]
    · have hf := Json.eq_str_eq h3
      subst hf
      have hne1 : (Json.str CAN_CLAIM_RECENTLY_PLAYED_TRACK).eq_str
          CAN_CLAIM_TOP_TRACKS = false := by decide
      have hne2 : (Json.str CAN_CLAIM_RECENTLY_PLAYED_TRACK).eq_str
          CAN_CLAIM_TOP_ARTISTS = false := by decide
      have hrp : (Json.str CAN_CLAIM_RECENTLY_PLAYED_TRACK).eq_str
          CAN_CLAIM_RECENTLY_PLAYED_TRACK = true := by decide
      simp [resolve_foreign_call, Json.is_object, hget, hne1, hne2, hrp,
            handle_can_claim_recently_played_track, hval]

theorem input_extractor_rejects_bad_shapes_witness :
    validate_and_extract_inputs (Json.obj [("inputs", Json.num 0)]) =
      .error (.invalid_params msgMissingInputs) ∧
    validate_and_extract_inputs (Json.obj [("inputs", Json.arr [Json.arr []])]) =
      .error (.invalid_params msgFourInputs) ∧
    validate_and_extract_inputs (Json.obj [("inputs",
        Json.arr [Json.num 0, Json.arr [], Json.arr [], Json.arr []])]) =
      .error (.invalid_params msgFirstInput) ∧
    validate_and_extract_inputs (Json.obj [("inputs",
        Json.arr [Json.arr [], Json.num 0, Json.arr [], Json.arr []])]) =
      .error (.invalid_params msgSecondInput) ∧
    validate_and_extract_inputs (Json.obj [("inputs",
        Json.arr [Json.arr [], Json.arr [], Json.num 0, Json.arr []])]) =
      .error (.invalid_params msgThirdInput) ∧
    validate_and_extract_inputs (Json.obj [("inputs",
        Json.arr [Json.arr [], Json.arr [], Json.arr [], Json.num 0])]) =
      .error (.invalid_params msgFourthInput) ∧
    resolve_foreign_call oracle0 (Params.array [Json.obj
        [("function", Json.str CAN_CLAIM_TOP_TRACKS), ("inputs", Json.num 0)]]) =
      some (.error (.invalid_params msgMissingInputs), []) :=
  ⟨input_extractor_rejects_bad_shapes.1 _ rfl,
   input_extractor_rejects_bad_shapes.2.1 _ [Json.arr []] rfl (by decide),
   (input_extractor_rejects_bad_shapes.2.2.1
      (Json.obj [("inputs",
        Json.arr [Json.num 0, Json.arr [], Json.arr [], Json.arr []])])
      (Json.num 0) (Json.arr []) (Json.arr []) (Json.arr []) rfl).1 rfl,
   ((input_extractor_rejects_bad_shapes.2.2.1
      (Json.obj [("inputs",
        Json.arr [Json.arr [], Json.num 0, Json.arr [], Json.arr []])])
      (Json.arr []) (Json.num 0) (Json.arr []) (Json.arr []) rfl).2.1)
      [] rfl rfl,
   ((input_extractor_rejects_bad_shapes.2.2.1
      (Json.obj [("inputs",
        Json.arr [Json.arr [], Json.arr [], Json.num 0, Json.arr []])])
      (Json.arr []) (Json.arr []) (Json.num 0) (Json.arr []) rfl).2.2.1)
      [] [] rfl rfl rfl,
   ((input_extractor_rejects_bad_shapes.2.2.1
      (Json.obj [("inputs",
        Json.arr [Json.arr [], Json.arr [], Json.arr [], Json.num 0])])
      (Json.arr []) (Json.arr []) (Json.arr []) (Json.num 0) rfl).2.2.2)
      [] [] [] rfl rfl rfl rfl,
   input_extractor_rejects_bad_shapes.2.2.2 oracle0
     [("function", Json.str CAN_CLAIM_TOP_TRACKS), ("inputs", Json.num 0)]
     (Json.str CAN_CLAIM_TOP_TRACKS) (.invalid_params msgMissingInputs)
     rfl (by decide) rfl⟩

/-- C6: in both the top-tracks and the top-artists handler, when the
first decoded time-range byte is not a member of the `TimeRange`
enumeration, the handler returns an InvalidParams error carrying the
enumeration rejection message and performs no collaborator invocation at
all: neither the token lookup nor the external claim evaluator runs (the
event list is empty). -/
theorem invalid_time_range_rejected_before_evaluator :
    ∀ (o : Oracle) (p : Json) (key track tr lr : List Json)
      (td ld : List Nat) (msg : String),
      validate_and_extract_inputs p = .ok (key, track, tr, lr) →
      tr.mapM hex_to_u8 = some td → lr.mapM hex_to_u8 = some ld →
      td ≠ [] → ld ≠ [] →
      TimeRange.from_number (td.headD 0) = .error msg →
      handle_can_claim_top_tracks o p =
        some (.error (.invalid_params_with_details msg ""), []) ∧
      handle_can_claim_top_artist o p =
        some (.error (.invalid_params_with_details msg ""), []) := by
  intro o p key track tr lr td ld msg hval htr hlr htd hld hfrom
  rcases td with _ | ⟨a, td'⟩
  · exact absurd rfl htd
  rcases ld with _ | ⟨b, ld'⟩
  · exact absurd rfl hld
  simp only [List.headD_cons] at hfrom
  simp only [List.mapM] at htr hlr
  constructor <;>
    simp [handle_can_claim_top_tracks, handle_can_claim_top_artist,
          hval, htr, hlr, hfrom]

theorem invalid_time_range_rejected_before_evaluator_witness :
    handle_can_claim_top_tracks oracle0 (Json.obj [("inputs",
        Json.arr [Json.arr [Json.str "0x41".toList],
                  Json.arr [Json.str "0x42".toList],
                  Json.arr [Json.str "0x03".toList],
                  Json.arr [Json.str "0x05".toList]])]) =
      some (.error (.invalid_params_with_details "Invalid time range" ""), []) ∧
    handle_can_claim_top_artist oracle0 (Json.obj [("inputs",
        Json.arr [Json.arr [Json.str "0x41".toList],
                  Json.arr [Json.str "0x42".toList],
                  Json.arr [Json.str "0x03".toList],
                  Json.arr [Json.str "0x05".toList]])]) =
      some (.error (.invalid_params_with_details "Invalid time range" ""), []) :=
  invalid_time_range_rejected_before_evaluator oracle0
    (Json.obj [("inputs",
        Json.arr [Json.arr [Json.str "0x41".toList],
                  Json.arr [Json.str "0x42".toList],
                  Json.arr [Json.str "0x03".toList],
                  Json.arr [Json.str "0x05".toList]])])
    [Json.str "0x41".toList] [Json.str "0x42".toList]
    [Json.str "0x03".toList] [Json.str "0x05".toList]
    [3] [5] "Invalid time range" rfl rfl rfl (by decide) (by decide) rfl

/-- C7: in all three claim handlers, when either trailing decoded array
is the empty sequence, the handler fails with the InvalidParams message
about empty ranges, with no collaborator invocation (the event list is
empty), so neither the token lookup nor the evaluator runs. -/
theorem empty_ranges_rejected_before_collaborators :
    (∀ (o : Oracle) (p : Json) (key track r1 r2 : List Json) (d1 d2 : List Nat),
       validate_and_extract_inputs p = .ok (key, track, r1, r2) →
       r1.mapM hex_to_u8 = some d1 → r2.mapM hex_to_u8 = some d2 →
       (d1 = [] ∨ d2 = []) →
       handle_can_claim_top_tracks o p =
         some (.error (.invalid_params msgEmptyRanges), []) ∧
       handle_can_claim_top_artist o p =
         some (.error (.invalid_params msgEmptyRanges), [])) ∧
    (∀ (o : Oracle) (p : Json) (key track r1 r2 : List Json) (d1 d2 : List Nat),
       validate_and_extract_inputs p = .ok (key, track, r1, r2) →
       r1.mapM hex_to_u64 = some d1 → r2.mapM hex_to_u8 = some d2 →
       (d1 = [] ∨ d2 = []) →
       handle_can_claim_recently_played_track o p =
         some (.error (.invalid_params msgEmptyRanges), [])) := by
  constructor
  · intro o p key track r1 r2 d1 d2 hval h1 h2 hor
    simp only [List.mapM] at h1 h2
    rcases hor with rfl | rfl <;>
      constructor <;>
        simp [handle_can_claim_top_tracks, handle_can_claim_top_artist,
              hval, h1, h2]
  · intro o p key track r1 r2 d1 d2 hval h1 h2 hor
    simp only [List.mapM] at h1 h2
    rcases hor with rfl | rfl <;>
      simp [handle_can_claim_recently_played_track, hval, h1, h2]

theorem empty_ranges_rejected_before_collaborators_witness :
    handle_can_claim_top_tracks oracle0 (Json.obj [("inputs",
        Json.arr [Json.arr [], Json.arr [], Json.arr [],
                  Json.arr [Json.str "0x05".toList]])]) =
      some (.error (.invalid_params msgEmptyRanges), []) ∧
    handle_can_claim_recently_played_track oracle0 (Json.obj [("inputs",
        Json.arr [Json.arr [], Json.arr [], Json.arr [],
                  Json.arr [Json.str "0x05".toList]])]) =
      some (.error (.invalid_params msgEmptyRanges), []) :=
  ⟨(empty_ranges_rejected_before_collaborators.1 oracle0
      (Json.obj [("inputs",
        Json.arr [Json.arr [], Json.arr [], Json.arr [],
                  Json.arr [Json.str "0x05".toList]])])
      [] [] [] [Json.str "0x05".toList] [] [5] rfl rfl rfl (Or.inl rfl)).1,
   empty_ranges_rejected_before_collaborators.2 oracle0
      (Json.obj [("inputs",
        Json.arr [Json.arr [], Json.arr [], Json.arr [],
                  Json.arr [Json.str "0x05".toList]])])
      [] [] [] [Json.str "0x05".toList] [] [5] rfl rfl rfl (Or.inl rfl)⟩

/-- The request object of the C8 scenario: `function` is the top-tracks
constant and `inputs` is the four singleton arrays
`[["0x41"], ["0x42"], ["0x00"], ["0x05"]]`. -/
def c8_params : Json :=
  Json.obj [("function", Json.str CAN_CLAIM_TOP_TRACKS),
            ("inputs", Json.arr [Json.arr [Json.str "0x41".toList],
                                 Json.arr [Json.str "0x42".toList],
                                 Json.arr [Json.str "0x00".toList],
                                 Json.arr [Json.str "0x05".toList]])]

/-- C8: for the concrete scenario request, the decoder yields key `A`,
track `B`, time-range byte `0` and list-range byte `5`; byte `0` maps to
a `TimeRange` member, and for every oracle whose token store maps `A` to
`tok123` and whose top-tracks evaluator answers `r` for the arguments
`(tok123, B, <selector for 0>, 5)`, the call performs exactly the token
lookup for `A` followed by that one evaluator call, and returns the
result wrapped as the object with member `values` holding the
one-element array `[r]`. -/
theorem top_tracks_scenario_end_to_end :
    decode_chars [Json.str "0x41".toList] = "A".toList ∧
    decode_chars [Json.str "0x42".toList] = "B".toList ∧
    hex_to_u8 (Json.str "0x00".toList) = some 0 ∧
    hex_to_u8 (Json.str "0x05".toList) = some 5 ∧
    TimeRange.from_number 0 = .ok TimeRange.shortTerm ∧
    (∀ (o : Oracle) (r : Json),
       o.get_token "A" = .ok "tok123" →
       o.can_claim_top_tracks "tok123" "B" TimeRange.shortTerm 5 = .ok r →
       resolve_foreign_call o (Params.array [c8_params]) =
         some (.ok (Json.obj [("values", Json.arr [r])]),
               [Event.getToken "A",
                Event.evalTopTracks "tok123" "B" TimeRange.shortTerm 5])) := by
  refine ⟨by decide, by decide, by decide, by decide, rfl, ?_⟩
  intro o r h1 h2
  have hstep : resolve_foreign_call o (Params.array [c8_params]) =
      handle_can_claim_top_tracks o c8_params := rfl
  have hval : validate_and_extract_inputs c8_params =
      .ok ([Json.str "0x41".toList], [Json.str "0x42".toList],
           [Json.str "0x00".toList], [Json.str "0x05".toList]) := rfl
  have htr : List.mapM.loop hex_to_u8 [Json.str ['0', 'x', '0', '0']] [] =
      some [0] := rfl
  have hlr : List.mapM.loop hex_to_u8 [Json.str ['0', 'x', '0', '5']] [] =
      some [5] := rfl
  have hkey : String.mk (decode_chars [Json.str ['0', 'x', '4', '1']]) = "A" := rfl
  have htrk : String.mk (decode_chars [Json.str ['0', 'x', '4', '2']]) = "B" := rfl
  rw [hstep]
  simp [handle_can_claim_top_tracks, hval, htr, hlr, hkey, htrk,
        TimeRange.from_number, h1, h2]

theorem top_tracks_scenario_end_to_end_witness :
    resolve_foreign_call oracle0 (Params.array [c8_params]) =
      some (.ok (Json.obj [("values", Json.arr [Json.bool true])]),
            [Event.getToken "A",
             Event.evalTopTracks "tok123" "B" TimeRange.shortTerm 5]) :=
  top_tracks_scenario_end_to_end.2.2.2.2.2 oracle0 (Json.bool true) rfl rfl

/-- C9: `store_key` with an empty identifier or empty token fails with
the InvalidParams message about empty values and performs no token-store
write (the event list is empty); with both nonempty it performs exactly
the store write and, when the store reports success, echoes the
identifier string. `delete_key` behaves the same with the single
identifier and the delete operation; its body never consults the store
contents, so deleting an absent key follows the same path as deleting a
present one. -/
theorem token_admin_methods_contract :
    (∀ (o : Oracle) (id token : String), id = "" ∨ token = "" →
       store_key o id token = (.error (.invalid_params msgEmptyIdToken), [])) ∧
    (∀ (o : Oracle) (id token : String), id ≠ "" → token ≠ "" →
       (store_key o id token).2 = [Event.storeToken id token] ∧
       (o.store_key_and_token id token = .ok () →
         store_key o id token =
           (.ok (Json.str id.toList), [Event.storeToken id token]))) ∧
    (∀ (o : Oracle) (id : String), id = "" →
       delete_key o id = (.error (.invalid_params msgEmptyIdToken), [])) ∧
    (∀ (o : Oracle) (id : String), id ≠ "" →
       (delete_key o id).2 = [Event.deleteToken id] ∧
       (o.delete_token id = .ok () →
         delete_key o id = (.ok (Json.str id.toList), [Event.deleteToken id]))) := by
  refine ⟨?_, ?_, ?_, ?_⟩
  · intro o id token h
    rcases h with rfl | rfl <;> simp [store_key]
  · intro o id token hid htok
    constructor
    · rcases h : o.store_key_and_token id token with e | u <;>
        simp [store_key, hid, htok, h]
    · intro h
      simp [store_key, hid, htok, h]
  · intro o id h
    subst h
    simp [delete_key]
  · intro o id hid
    constructor
    · rcases h : o.delete_token id with e | u <;> simp [delete_key, hid, h]
    · intro h
      simp [delete_key, hid, h]

theorem token_admin_methods_contract_witness :
    store_key oracle0 "" "tok" = (.error (.invalid_params msgEmptyIdToken), []) ∧
    (store_key oracle0 "A" "tok123").2 = [Event.storeToken "A" "tok123"] ∧
    store_key oracle0 "A" "tok123" =
      (.ok (Json.str "A".toList), [Event.storeToken "A" "tok123"]) ∧
    delete_key oracle0 "" = (.error (.invalid_params msgEmptyIdToken), []) ∧
    (delete_key oracle0 "A").2 = [Event.deleteToken "A"] ∧
    delete_key oracle0 "A" = (.ok (Json.str "A".toList), [Event.deleteToken "A"]) :=
  ⟨token_admin_methods_contract.1 oracle0 "" "tok" (Or.inl rfl),
   (token_admin_methods_contract.2.1 oracle0 "A" "tok123"
      (by decide) (by decide)).1,
   (token_admin_methods_contract.2.1 oracle0 "A" "tok123"
      (by decide) (by decide)).2 rfl,
   token_admin_methods_contract.2.2.1 oracle0 "" rfl,
   (token_admin_methods_contract.2.2.2 oracle0 "A" (by decide)).1,
   (token_admin_methods_contract.2.2.2 oracle0 "A" (by decide)).2 rfl⟩
